import Mathlib

/-!
Verification of the maice-back grading pipeline against its specification.

This file gives a shallow embedding, in Lean, of the parts of the backend
that the specification talks about: the SQLAlchemy tables (as lists of row
structures plus autoincrement counters), the OCR storage and service
(`app/services/analysis/ocr_storage.py`, `ocr_service.py`), the grading
processor, repository and service (`app/services/grading/*.py`), the rating
service (`app/services/rating/rating_service.py`) and the batch submission
router (`app/routers/submission.py`).  Python dicts holding recognition
results are embedded as structures (or as `PyVal` where the dynamic shape
matters), Float score columns as `Int`, exceptions as `Except`/error values,
and the polling loops of the assistant runs as recursion over the list of
observed run statuses (`none` modelling a poll loop that never terminates).
-/

namespace Maice

/-- Python exceptions that the embedded code can raise. -/
inductive PyErr where
  | keyError (key : String)
  | integrityError
  | valueError (msg : String)
  | attributeError (msg : String)
  deriving Repr, DecidableEq

/-- Abbreviated rendering of `str(e)` for an exception; only the claims on
status codes depend on the exact text, and those use `HTTPError` below. -/
def strOfPyErr : PyErr → String
  | .keyError k => "KeyError: " ++ k
  | .integrityError => "IntegrityError"
  | .valueError m => m
  | .attributeError m => m

/-- A `fastapi.HTTPException`: status code plus detail string. -/
structure HTTPError where
  status : Nat
  detail : String
  deriving Repr, DecidableEq

/-- Rendering of `str(e)` for an `HTTPException` (`"<status>: <detail>"`),
as used when a catch-all handler wraps one exception into another. -/
def strOfHTTPError (e : HTTPError) : String :=
  toString e.status ++ ": " ++ e.detail

/-- A row of `text_extractions` (`app/models/extraction.py`).  The
`solution_steps` JSON column is kept as the list it serialises. -/
structure ExtractionRow where
  id : Nat
  student_id : String
  problem_key : String
  submission_id : Nat
  extraction_number : Nat
  extracted_text : String
  image_path : String
  solution_steps : List String
  deriving Repr, DecidableEq

/-- A row of `student_submissions` (`app/models/submission.py`), restricted
to the columns the embedded operations read. -/
structure SubmissionRow where
  id : Nat
  student_id : String
  problem_key : String
  image_path : String
  deriving Repr, DecidableEq

/-- A row of `grading_criteria` (`app/models/criteria.py`). -/
structure CriteriaRow where
  id : Nat
  problem_key : String
  total_points : Int
  correct_answer : String
  description : Option String
  deriving Repr, DecidableEq

/-- A row of `detailed_criteria` (`app/models/criteria.py`). -/
structure DetailedCriteriaRow where
  id : Nat
  grading_criteria_id : Nat
  item : String
  points : Int
  description : String
  deriving Repr, DecidableEq

/-- A row of `gradings` (`app/models/grading.py`). -/
structure GradingRow where
  id : Nat
  student_id : String
  problem_key : String
  submission_id : Nat
  extraction_id : Nat
  extracted_text : String
  solution_steps : List String
  total_score : Int
  max_score : Int
  feedback : String
  grading_number : Nat
  image_path : String
  deriving Repr, DecidableEq

/-- A row of `detailed_scores` (`app/models/grading.py`). -/
structure DetailedScoreRow where
  id : Nat
  grading_id : Nat
  detailed_criteria_id : Nat
  score : Int
  feedback : String
  deriving Repr, DecidableEq

/-- A row of `solution_ratings` (`app/models/rating.py`). -/
structure RatingRow where
  id : Nat
  grading_id : Nat
  rater_id : String
  rating_score : Int
  comment : Option String
  deriving Repr, DecidableEq

/-- The persistent store: one list per table, plus the autoincrement
counters that assign primary keys. -/
structure DBState where
  students : List String
  submissions : List SubmissionRow
  extractions : List ExtractionRow
  grading_criteria : List CriteriaRow
  detailed_criteria : List DetailedCriteriaRow
  gradings : List GradingRow
  detailed_scores : List DetailedScoreRow
  ratings : List RatingRow
  nextExtractionId : Nat
  nextCriteriaId : Nat
  nextDetailedCriteriaId : Nat
  nextGradingId : Nat
  nextScoreId : Nat
  nextRatingId : Nat
  deriving Repr, DecidableEq

/-- The empty database. -/
def DBState.empty : DBState :=
  { students := [], submissions := [], extractions := [], grading_criteria := []
    detailed_criteria := [], gradings := [], detailed_scores := [], ratings := []
    nextExtractionId := 1, nextCriteriaId := 1, nextDetailedCriteriaId := 1
    nextGradingId := 1, nextScoreId := 1, nextRatingId := 1 }

/-- The rows of `text_extractions` belonging to one (student_id, problem_key)
pair: the WHERE clause of `OCRStorage._get_next_extraction_number`. -/
def pairRows (rows : List ExtractionRow) (sid pk : String) : List ExtractionRow :=
  rows.filter (fun r => r.student_id == sid && r.problem_key == pk)

/-- `select coalesce(max(extraction_number), 0)` over the pair's rows. -/
def maxExtractionNumber (rows : List ExtractionRow) (sid pk : String) : Nat :=
  (pairRows rows sid pk).foldr (fun r m => max r.extraction_number m) 0

/-- `OCRStorage._get_next_extraction_number`: the coalesced maximum plus 1. -/
def get_next_extraction_number (rows : List ExtractionRow) (sid pk : String) : Nat :=
  maxExtractionNumber rows sid pk + 1

/-- The dict returned by the recognition capability as consumed by
`OCRStorage.save_result`: `ocr_result["text"]` (a `none` models an absent
key, raising `KeyError`) and `ocr_result.get("solution_steps", [])`. -/
structure OCRResultDict where
  text : Option String
  solution_steps : List String := []
  deriving Repr, DecidableEq

/-- `OCRStorage.save_result`: assigns the next extraction number, inserts a
`TextExtraction` row, flushes, and returns the row.  A missing `"text"` key
raises `KeyError`, which the method logs and re-raises. -/
def save_result (db : DBState) (ocr_result : OCRResultDict)
    (student_id problem_key image_path : String) (submission_id : Nat) :
    Except PyErr (ExtractionRow × DBState) :=
  match ocr_result.text with
  | none => .error (.keyError "text")
  | some t =>
      let n := get_next_extraction_number db.extractions student_id problem_key
      let row : ExtractionRow :=
        { id := db.nextExtractionId, student_id := student_id
          problem_key := problem_key, submission_id := submission_id
          extraction_number := n, extracted_text := t
          image_path := image_path, solution_steps := ocr_result.solution_steps }
      .ok (row, { db with extractions := db.extractions ++ [row]
                          nextExtractionId := db.nextExtractionId + 1 })

/-- One input to a sequential sequence of `save_result` calls. -/
structure SaveInput where
  dict : OCRResultDict
  image_path : String
  submission_id : Nat
  deriving Repr, DecidableEq

/-- A sequential sequence of `save_result` calls for one
(student_id, problem_key) pair: a save that raises assigns no number and
leaves the store unchanged (the caller rolls back); a save that succeeds
commits its row.  Returns the assigned extraction numbers in call order
together with the final store. -/
def runSaves (db : DBState) (sid pk : String) : List SaveInput → List Nat × DBState
  | [] => ([], db)
  | i :: is =>
      match save_result db i.dict sid pk i.image_path i.submission_id with
      | .error _ => runSaves db sid pk is
      | .ok (row, db2) =>
          let rest := runSaves db2 sid pk is
          (row.extraction_number :: rest.1, rest.2)

/-- The number of saves in the sequence that succeed (their dict carries a
`"text"` key). -/
def countSuccess (inputs : List SaveInput) : Nat :=
  (inputs.filter (fun i => i.dict.text.isSome)).length

/-! ## The in-memory OCR result cache and `OCRService.analyze_image` -/

/-- One value of the process-local `OCRService._cache` dict: the raw
recognition result plus its expiry instant. -/
structure CacheEntry where
  result : OCRResultDict
  expires_at : Nat
  deriving Repr, DecidableEq

/-- The cache itself, keyed by `"ocr:" ++ image_path`. -/
structure OCRCache where
  entries : List (String × CacheEntry)
  deriving Repr, DecidableEq

/-- `OCRService._get_cache_key`. -/
def get_cache_key (image_path : String) : String := "ocr:" ++ image_path

/-- Dict lookup on the cache (`self._cache.get(cache_key)`). -/
def cacheGet (c : OCRCache) (key : String) : Option CacheEntry :=
  (c.entries.find? (fun kv => kv.1 == key)).map (fun kv => kv.2)

/-- Dict assignment on the cache (`OCRService._set_cached_result` stores the
result with `expires_at = time.time() + ttl`, overwriting the key). -/
def cacheSet (c : OCRCache) (key : String) (result : OCRResultDict) (expires_at : Nat) : OCRCache :=
  { entries := (key, { result := result, expires_at := expires_at }) ::
      c.entries.filter (fun kv => !(kv.1 == key)) }

/-- Dict `pop` on the cache (expired entries are deleted on access). -/
def cachePop (c : OCRCache) (key : String) : OCRCache :=
  { entries := c.entries.filter (fun kv => !(kv.1 == key)) }

/-- The outcome of `self.processor.process_image(...)` as awaited under
`async with timeout(60)`: it returns a result dict, exceeds the 60 second
bound, or raises with some message. -/
inductive OCRCallOutcome where
  | ok (result : OCRResultDict)
  | timeout
  | failure (msg : String)
  deriving Repr, DecidableEq

/-- What `OCRService.analyze_image` returns: either the raw cached dict
(the early return on a cache hit) or the freshly persisted row. -/
inductive OCRRet where
  | cached (result : OCRResultDict)
  | fresh (row : ExtractionRow)
  deriving Repr, DecidableEq

/-- The detail of the inner `HTTPException(408, ...)` raised on timeout. -/
def ocrTimeoutDetail : String := "OCR 분석 시간이 초과되었습니다. 다시 시도해주세요."

/-- The part of `OCRService.analyze_image` that runs after the cache check:
the bounded external call, the cache store, and `save_result`.  On timeout
the inner handler raises `HTTPException(408, ...)`; that exception — like
every other — is then caught by the method's own `except Exception` clause
and re-raised as `HTTPException(500, str(e))`.  The cache, a field of the
service object, keeps any mutation even when the call raises, so it is
returned alongside the `Except`. -/
def analyze_image_uncached (cache : OCRCache) (now : Nat)
    (student_id problem_type image_path : String) (submission_id : Nat)
    (call : OCRCallOutcome) (db : DBState) :
    OCRCache × Except HTTPError (OCRRet × DBState) :=
  match call with
  | .timeout =>
      (cache, .error { status := 500
                       detail := strOfHTTPError { status := 408, detail := ocrTimeoutDetail } })
  | .failure msg => (cache, .error { status := 500, detail := msg })
  | .ok result =>
      let cache2 := cacheSet cache (get_cache_key image_path) result (now + 3600)
      match save_result db result student_id problem_type image_path submission_id with
      | .error e => (cache2, .error { status := 500, detail := strOfPyErr e })
      | .ok (row, db2) => (cache2, .ok (.fresh row, db2))

/-- `OCRService.analyze_image`: on a cache hit that has not expired, the raw
cached dict is returned directly and nothing else runs; an expired entry is
popped; otherwise the external call, cache store and persistence run. -/
def analyze_image (cache : OCRCache) (now : Nat)
    (student_id problem_type image_path : String) (submission_id : Nat)
    (call : OCRCallOutcome) (db : DBState) :
    OCRCache × Except HTTPError (OCRRet × DBState) :=
  match cacheGet cache (get_cache_key image_path) with
  | some entry =>
      if now < entry.expires_at then
        (cache, .ok (.cached entry.result, db))
      else
        analyze_image_uncached (cachePop cache (get_cache_key image_path)) now
          student_id problem_type image_path submission_id call db
  | none =>
      analyze_image_uncached cache now student_id problem_type image_path submission_id call db

/-! ## The declared unique constraint on `text_extractions` (C8) -/

/-- Two extraction rows agree on the triple covered by the declared
`UniqueConstraint('student_id', 'problem_key', 'extraction_number')`. -/
def sameExtractionTriple (a b : ExtractionRow) : Bool :=
  a.student_id == b.student_id && a.problem_key == b.problem_key &&
    a.extraction_number == b.extraction_number

/-- An INSERT into `text_extractions` under that constraint: a row that
duplicates an existing triple fails with an integrity error instead of
being stored. -/
def insertExtraction (rows : List ExtractionRow) (r : ExtractionRow) :
    Except PyErr (List ExtractionRow) :=
  if rows.any (fun r0 => sameExtractionTriple r0 r) then .error .integrityError
  else .ok (rows ++ [r])

/-- Extraction-table states reachable from empty by successful inserts. -/
inductive ReachableExtractions : List ExtractionRow → Prop where
  | empty : ReachableExtractions []
  | insert (rows : List ExtractionRow) (r : ExtractionRow) (rows2 : List ExtractionRow) :
      ReachableExtractions rows → insertExtraction rows r = .ok rows2 →
      ReachableExtractions rows2

/-- Two grading rows agree on (student_id, problem_key, grading_number).
The `gradings` table declares no constraint over this triple. -/
def sameGradingTriple (a b : GradingRow) : Bool :=
  a.student_id == b.student_id && a.problem_key == b.problem_key &&
    a.grading_number == b.grading_number

/-- An INSERT into `gradings`: the model declares no unique constraint on
the triple, so the insert always stores the row. -/
def insertGrading (rows : List GradingRow) (r : GradingRow) : List GradingRow :=
  rows ++ [r]

/-- Grading-table states reachable from empty by inserts. -/
inductive ReachableGradings : List GradingRow → Prop where
  | empty : ReachableGradings []
  | insert (rows : List GradingRow) (r : GradingRow) :
      ReachableGradings rows → ReachableGradings (insertGrading rows r)

/-! ## Dynamic dict values and `OCRAssistant.validate_ocr_result` (C7) -/

/-- A Python value as far as the validator inspects it. -/
inductive PyVal where
  | str (s : String)
  | int (n : Int)
  | boolean (b : Bool)
  | list (xs : List PyVal)
  | dict (kvs : List (String × PyVal))
  | pynone

/-- Dict lookup (`k in d` / `d[k]` / `d.get(k)` combined). -/
def dictLookup (kvs : List (String × PyVal)) (k : String) : Option PyVal :=
  (kvs.find? (fun kv => kv.1 == k)).map (fun kv => kv.2)

/-- The per-expression check in `validate_ocr_result`: each expression must
be a dict holding a `"latex"` key. -/
def validExpr : PyVal → Bool
  | .dict kvs => (dictLookup kvs "latex").isSome
  | _ => false

/-- The per-step check in `validate_ocr_result`: a dict with a string
`"content"`, and — when present — a list of valid `"expressions"`. -/
def validStep : PyVal → Bool
  | .dict kvs =>
      (match dictLookup kvs "content" with
       | some (.str _) => true
       | _ => false) &&
      (match dictLookup kvs "expressions" with
       | none => true
       | some (.list es) => es.all validExpr
       | some _ => false)
  | _ => false

/-- `OCRAssistant.validate_ocr_result`: the result must be a dict whose
`"text"` value is a string (presence and type only — emptiness is not
checked), and whose `"steps"` value, when present, is a list of valid
steps.  No code path of the extraction pipeline calls this function. -/
def validate_ocr_result : PyVal → Bool
  | .dict kvs =>
      (match dictLookup kvs "text" with
       | some (.str _) => true
       | _ => false) &&
      (match dictLookup kvs "steps" with
       | none => true
       | some (.list steps) => steps.all validStep
       | some _ => false)
  | _ => false

/-! ## Criteria dicts and their hard-coded fallbacks -/

/-- One entry of a criteria dict's `"detailed_criteria"` list as consumed by
the grading processor: it must carry an `"id"`. -/
structure DetailedCriteriaDict where
  id : Nat
  item : String
  points : Int
  description : String
  deriving Repr, DecidableEq

/-- The dict shape the grading processor consumes: `"total_points"`,
optional `"description"` and `"correct_answer"`, and `"detailed_criteria"`
entries with ids. -/
structure CriteriaDict where
  problem_key : String
  total_points : Int
  correct_answer : Option String := none
  description : Option String := none
  detailed_criteria : List DetailedCriteriaDict
  deriving Repr, DecidableEq

/-- `GradingService.get_default_criteria`: the hard-coded default criteria
dict with ids 1–4 (total 100 points: 20/40/20/20). -/
def get_default_criteria (problem_key : String) : CriteriaDict :=
  { problem_key := problem_key
    total_points := 100
    detailed_criteria :=
      [ { id := 1, item := "문제 이해", points := 20
          description := "문제를 정확히 이해하고 필요한 정보를 파악" }
      , { id := 2, item := "풀이 과정", points := 40
          description := "논리적이고 단계적인 풀이 과정 전개" }
      , { id := 3, item := "계산 정확도", points := 20
          description := "수치 계산의 정확성" }
      , { id := 4, item := "답안 표현", points := 20
          description := "답안의 명확한 표현과 단위 표기" } ] }

/-- One entry of the id-less fallback dict that
`app/services/grading/criteria_service.py` returns. -/
structure FallbackCriterionDict where
  item : String
  points : Int
  description : String
  deriving Repr, DecidableEq

/-- The id-less fallback criteria dict of `CriteriaService.get_criteria`
(total 10 points: 2/4/2/2). -/
structure FallbackCriteriaDict where
  problem_key : String
  total_points : Int
  correct_answer : String
  detailed_criteria : List FallbackCriterionDict
  deriving Repr, DecidableEq

/-- What `CriteriaService.get_criteria` evaluates to: the stored ORM row
when one exists for the key, otherwise the hard-coded fallback dict. -/
inductive CriteriaLookup where
  | row (c : CriteriaRow)
  | fallback (d : FallbackCriteriaDict)
  deriving Repr, DecidableEq

/-- The fallback dict literal of `CriteriaService.get_criteria`. -/
def criteriaServiceFallback (problem_key : String) : FallbackCriteriaDict :=
  { problem_key := problem_key
    total_points := 10
    correct_answer := ""
    detailed_criteria :=
      [ { item := "문제 이해", points := 2
          description := "문제를 정확히 이해하고 필요한 정보를 파악" }
      , { item := "풀이 과정", points := 4
          description := "논리적이고 단계적인 풀이 과정 전개" }
      , { item := "계산 정확도", points := 2
          description := "수치 계산의 정확성" }
      , { item := "답안 표현", points := 2
          description := "답안의 명확한 표현과 단위 표기" } ] }

/-- `CriteriaService.get_criteria`: a SELECT on `grading_criteria` by key;
when no row exists the fallback dict is returned.  The method only reads,
so the store is handed back unchanged. -/
def get_criteria (db : DBState) (problem_key : String) : CriteriaLookup × DBState :=
  match db.grading_criteria.find? (fun c => c.problem_key == problem_key) with
  | some c => (.row c, db)
  | none => (.fallback (criteriaServiceFallback problem_key), db)

/-! ## The grading processor (`grading_processor.py`) -/

/-- One per-criterion entry of the structured result returned through the
`process_grading` function call. -/
structure DetailedScoreDict where
  detailed_criteria_id : Nat
  score : Int
  feedback : String
  deriving Repr, DecidableEq

/-- The structured grading result dict (`total_score`, `max_score`,
`feedback`, `detailed_scores`; `solution_steps` read with a `[]` default). -/
structure GradingResultDict where
  total_score : Int
  max_score : Int
  feedback : String
  detailed_scores : List DetailedScoreDict
  solution_steps : List String := []
  deriving Repr, DecidableEq

/-- A tool call observed on a `requires_action` run status: its function
name and its arguments (which may fail to parse as JSON). -/
structure ToolCall where
  name : String
  args : Option GradingResultDict
  deriving Repr, DecidableEq

/-- A message of the thread as observed in the `completed` branch. -/
structure ThreadMessage where
  role : String
  deriving Repr, DecidableEq

/-- One observation of the run status while `_process_run` polls. -/
structure RunStatusObs where
  status : String
  tool_calls : List ToolCall := []
  messages : List ThreadMessage := []
  deriving Repr, DecidableEq

/-- Errors raised inside `GradingProcessor._process_run`. -/
inductive GradeErr where
  | jsonDecodeError
  | runFailed (msg : String)
  deriving Repr, DecidableEq

/-- The default result `_process_run` fabricates when the run completes
without a `process_grading` function call but with an assistant message:
zero total score, `max_score = criteria["total_points"]`, and a zero score
with a fixed feedback for every detailed criterion. -/
def defaultGradingResult (criteria : CriteriaDict) : GradingResultDict :=
  { total_score := 0
    max_score := criteria.total_points
    feedback := "채점 결과를 생성할 수 없습니다."
    detailed_scores := criteria.detailed_criteria.map (fun dc =>
      { detailed_criteria_id := dc.id, score := 0, feedback := "평가할 수 없습니다." }) }

/-- `GradingProcessor._process_run`: recursion over the successive run
status observations replaces the polling loop; `none` models a loop that
never observes a terminating status.  A `requires_action` status with a
`process_grading` call returns its parsed arguments (or raises on a JSON
error); one without such a call submits tool outputs and polls again; a
`completed` status with an assistant message returns the fabricated default
result; `failed`, `cancelled` and `expired` raise a plain `Exception`. -/
def process_run (criteria : CriteriaDict) : List RunStatusObs → Option (Except GradeErr GradingResultDict)
  | [] => none
  | obs :: rest =>
      if obs.status == "requires_action" then
        match obs.tool_calls.find? (fun tc => tc.name == "process_grading") with
        | some tc =>
            match tc.args with
            | some r => some (.ok r)
            | none => some (.error .jsonDecodeError)
        | none => process_run criteria rest
      else if obs.status == "completed" then
        match obs.messages.find? (fun m => m.role == "assistant") with
        | some _ => some (.ok (defaultGradingResult criteria))
        | none => process_run criteria rest
      else if obs.status == "failed" || obs.status == "cancelled" || obs.status == "expired" then
        some (.error (.runFailed ("채점 실패: " ++ obs.status)))
      else
        process_run criteria rest

/-- `GradingProcessor.process_grading`: builds the criterion-id mapping for
the prompt, runs the thread, and returns `_process_run`'s result; every
error propagates. -/
def process_grading (criteria : CriteriaDict) (runObs : List RunStatusObs) :
    Option (Except GradeErr GradingResultDict) :=
  process_run criteria runObs

/-! ## The grading repository (`grading_repository.py`) -/

/-- `GradingRepository._get_next_grading_number`:
`max(grading_number) or 0`, plus 1, over the pair's rows. -/
def get_next_grading_number (rows : List GradingRow) (sid pk : String) : Nat :=
  (rows.filter (fun r => r.student_id == sid && r.problem_key == pk)).foldr
    (fun r m => max r.grading_number m) 0 + 1

/-- The dict `GradingRepository.verify_references` returns. -/
structure RefsResult where
  submission_exists : Bool
  extraction_exists : Bool
  submission_details : Option SubmissionRow
  extraction_details : Option ExtractionRow
  criteria : CriteriaRow
  criteria_detailed : List DetailedCriteriaRow
  deriving Repr, DecidableEq

/-- The four default `DetailedCriteria` rows `verify_references` inserts
when no criteria exist for the key (30/40/20/10 points). -/
def defaultDetailedCriteriaRows (criteria_id firstId : Nat) : List DetailedCriteriaRow :=
  [ { id := firstId, grading_criteria_id := criteria_id, item := "문제 이해"
      points := 30, description := "문제의 정확한 이해와 해석" }
  , { id := firstId + 1, grading_criteria_id := criteria_id, item := "풀이 과정"
      points := 40, description := "논리적인 풀이 과정 전개" }
  , { id := firstId + 2, grading_criteria_id := criteria_id, item := "계산 정확성"
      points := 20, description := "수치 계산의 정확성" }
  , { id := firstId + 3, grading_criteria_id := criteria_id, item := "답안 표현"
      points := 10, description := "답안의 명확한 표현" } ]

/-- `GradingRepository.verify_references`: looks up the criteria for the
key and — when absent — creates and flushes a default `GradingCriteria` row
(100 points, description `기본 채점 기준`) together with its four default
`DetailedCriteria` rows; then looks up the submission and the extraction
by id and reports what exists. -/
def verify_references (db : DBState) (problem_key : String)
    (submission_id extraction_id : Nat) : RefsResult × DBState :=
  let found := db.grading_criteria.find? (fun c => c.problem_key == problem_key)
  let step : CriteriaRow × List DetailedCriteriaRow × DBState :=
    match found with
    | some c =>
        (c, db.detailed_criteria.filter (fun d => d.grading_criteria_id == c.id), db)
    | none =>
        let c : CriteriaRow :=
          { id := db.nextCriteriaId, problem_key := problem_key, total_points := 100
            correct_answer := "", description := some "기본 채점 기준" }
        let ds := defaultDetailedCriteriaRows c.id db.nextDetailedCriteriaId
        (c, ds, { db with grading_criteria := db.grading_criteria ++ [c]
                          detailed_criteria := db.detailed_criteria ++ ds
                          nextCriteriaId := db.nextCriteriaId + 1
                          nextDetailedCriteriaId := db.nextDetailedCriteriaId + 4 })
  let db1 := step.2.2
  let sub := db1.submissions.find? (fun s => s.id == submission_id)
  let ext := db1.extractions.find? (fun e => e.id == extraction_id)
  ({ submission_exists := sub.isSome, extraction_exists := ext.isSome
     submission_details := sub, extraction_details := ext
     criteria := step.1, criteria_detailed := step.2.1 }, db1)

/-- One entry of the `detailed_scores` list in the response dict
`GradingRepository.create_grading` builds. -/
structure ScoreResponseData where
  id : Nat
  score : Int
  feedback : String
  detailed_criteria_id : Nat
  criteria_item : String
  criteria_points : Int
  criteria_description : String
  deriving Repr, DecidableEq

/-- The response dict `GradingRepository.create_grading` returns. -/
structure GradingResponseData where
  id : Nat
  student_id : String
  problem_key : String
  submission_id : Nat
  extraction_id : Nat
  extracted_text : String
  solution_steps : List String
  total_score : Int
  max_score : Int
  feedback : String
  grading_number : Nat
  image_path : String
  detailed_scores : List ScoreResponseData
  deriving Repr, DecidableEq

/-- The `DetailedScore` rows inserted for a grading, with autoincremented
ids starting at `firstId`. -/
def mkScoreRows (grading_id firstId : Nat) : List DetailedScoreDict → List DetailedScoreRow
  | [] => []
  | sd :: rest =>
      { id := firstId, grading_id := grading_id
        detailed_criteria_id := sd.detailed_criteria_id
        score := sd.score, feedback := sd.feedback } :: mkScoreRows grading_id (firstId + 1) rest

/-- The re-query with `joinedload` after the flush: each persisted score is
joined to its `DetailedCriteria` row; a score whose criterion does not
resolve raises `ValueError` (the source's relationship check). -/
def buildScoreResponses (detailed_criteria : List DetailedCriteriaRow) :
    List DetailedScoreRow → Except PyErr (List ScoreResponseData)
  | [] => .ok []
  | s :: rest =>
      match detailed_criteria.find? (fun d => d.id == s.detailed_criteria_id) with
      | none =>
          .error (.valueError ("DetailedCriteria not loaded for DetailedScore " ++ toString s.id))
      | some dc =>
          match buildScoreResponses detailed_criteria rest with
          | .error e => .error e
          | .ok rs =>
              .ok ({ id := s.id, score := s.score, feedback := s.feedback
                     detailed_criteria_id := s.detailed_criteria_id
                     criteria_item := dc.item, criteria_points := dc.points
                     criteria_description := dc.description } :: rs)

/-- `GradingRepository.create_grading`: verifies references (creating the
default criteria when absent), checks the submission/extraction linkage,
assigns the next grading number, flushes the `Grading` row (the store runs
with `PRAGMA foreign_keys=ON`, so a missing student is an integrity error),
flushes one `DetailedScore` row per entry of
`grading_data["detailed_scores"]` with the `detailed_criteria_id` taken
verbatim from the external result (a reference to no existing criterion at
all fails the foreign key; membership in the rubric for this problem_key
is not checked), re-queries with eager loading, and builds the response. -/
def repository_create_grading (db : DBState) (student_id problem_key image_path : String)
    (grading_data : GradingResultDict) (extraction : ExtractionRow) :
    Except PyErr (GradingResponseData × DBState) :=
  let vr := verify_references db problem_key extraction.submission_id extraction.id
  let refs := vr.1
  let db1 := vr.2
  match refs.submission_details with
  | none =>
      .error (.valueError ("Submission " ++ toString extraction.submission_id ++ " does not exist"))
  | some sub =>
      match refs.extraction_details with
      | none =>
          .error (.valueError ("TextExtraction " ++ toString extraction.id ++ " does not exist"))
      | some ext =>
          if !(ext.submission_id == sub.id) then
            .error (.valueError ("Extraction " ++ toString extraction.id ++
              " references submission " ++ toString ext.submission_id ++
              " but expected " ++ toString sub.id))
          else if !(db1.students.contains student_id) then
            .error .integrityError
          else
            let n := get_next_grading_number db1.gradings student_id problem_key
            let grow : GradingRow :=
              { id := db1.nextGradingId, student_id := student_id
                problem_key := problem_key, submission_id := sub.id
                extraction_id := ext.id, extracted_text := extraction.extracted_text
                solution_steps := grading_data.solution_steps
                total_score := grading_data.total_score
                max_score := grading_data.max_score
                feedback := grading_data.feedback
                grading_number := n, image_path := image_path }
            let db2 := { db1 with gradings := insertGrading db1.gradings grow
                                  nextGradingId := db1.nextGradingId + 1 }
            let scoreRows := mkScoreRows grow.id db2.nextScoreId grading_data.detailed_scores
            if scoreRows.any (fun s =>
                (db2.detailed_criteria.find? (fun d => d.id == s.detailed_criteria_id)).isNone) then
              .error .integrityError
            else
              let db3 := { db2 with detailed_scores := db2.detailed_scores ++ scoreRows
                                    nextScoreId := db2.nextScoreId + scoreRows.length }
              match buildScoreResponses db3.detailed_criteria scoreRows with
              | .error e => .error e
              | .ok srs =>
                  .ok ({ id := grow.id, student_id := grow.student_id
                         problem_key := grow.problem_key
                         submission_id := grow.submission_id
                         extraction_id := grow.extraction_id
                         extracted_text := grow.extracted_text
                         solution_steps := grow.solution_steps
                         total_score := grow.total_score, max_score := grow.max_score
                         feedback := grow.feedback, grading_number := grow.grading_number
                         image_path := grow.image_path, detailed_scores := srs }, db3)

/-! ## The grading service (`grading_service.py`) -/

/-- Rendering of `str(e)` for a processor error. -/
def strOfGradeErr : GradeErr → String
  | .jsonDecodeError => "JSONDecodeError"
  | .runFailed m => m

/-- The detail of the blanket 500 `GradingService.create_grading` raises. -/
def gradingServiceErrDetail (inner : String) : String :=
  "채점 처리 중 오류가 발생했습니다: " ++ inner

/-- `GradingService.create_grading`: checks the student exists, substitutes
the default criteria when `criteria` is `None` or empty (`none` here),
checks the extraction row exists, runs the processor, and persists through
the repository.  Every exception — the inner 404 `HTTPException`s included —
is wrapped by the method's `except Exception` clause into a 500.  A `none`
models a processor poll loop that never terminates. -/
def service_create_grading (db : DBState) (student_id problem_key image_path : String)
    (extraction : ExtractionRow) (criteria : Option CriteriaDict)
    (runObs : List RunStatusObs) :
    Option (Except HTTPError (GradingResponseData × DBState)) :=
  if !(db.students.contains student_id) then
    some (.error { status := 500
                   detail := gradingServiceErrDetail
                     (strOfHTTPError { status := 404, detail := "학생을 찾을 수 없습니다." }) })
  else
    let criteria2 := match criteria with
      | none => get_default_criteria problem_key
      | some c => c
    if (db.extractions.find? (fun e => e.id == extraction.id)).isNone then
      some (.error { status := 500
                     detail := gradingServiceErrDetail
                       (strOfHTTPError { status := 404, detail := "OCR 결과를 찾을 수 없습니다." }) })
    else
      match process_grading criteria2 runObs with
      | none => none
      | some (.error e) =>
          some (.error { status := 500, detail := gradingServiceErrDetail (strOfGradeErr e) })
      | some (.ok result) =>
          match repository_create_grading db student_id problem_key image_path result extraction with
          | .error e =>
              some (.error { status := 500, detail := gradingServiceErrDetail (strOfPyErr e) })
          | .ok (resp, db2) => some (.ok (resp, db2))

/-! ## The rating service (`rating_service.py`) -/

/-- The methods the `RatingService` class body defines.  No definition of
`get_user_rating` exists anywhere in the repository, although
`create_rating`'s first statement awaits `self.get_user_rating(...)`. -/
def ratingServiceMethodNames : List String := ["create_rating", "get_solution_ratings"]

/-- The request body of a rating creation (`schemas/rating.py`). -/
structure RatingCreate where
  grading_id : Nat
  rating_score : Int
  comment : Option String
  deriving Repr, DecidableEq

/-- `RatingService.create_rating`: its first statement resolves the
attribute `get_user_rating` on the service object; since the class defines
no such attribute, every call raises `AttributeError`, which the method's
`except` clause rolls back and re-raises.  The update-or-insert body that
follows the lookup is embedded as written but is unreachable. -/
def create_rating (db : DBState) (rater_id : String) (rating_data : RatingCreate) :
    Except PyErr (RatingRow × DBState) :=
  if ratingServiceMethodNames.contains "get_user_rating" then
    match db.ratings.find? (fun r =>
        r.rater_id == rater_id && r.grading_id == rating_data.grading_id) with
    | some existing =>
        let updated := { existing with rating_score := rating_data.rating_score
                                       comment := rating_data.comment }
        .ok (updated, { db with ratings := db.ratings.map (fun r =>
              if r.id == existing.id then updated else r) })
    | none =>
        let row : RatingRow :=
          { id := db.nextRatingId, grading_id := rating_data.grading_id
            rater_id := rater_id, rating_score := rating_data.rating_score
            comment := rating_data.comment }
        .ok (row, { db with ratings := db.ratings ++ [row]
                            nextRatingId := db.nextRatingId + 1 })
  else
    .error (.attributeError "RatingService object has no attribute get_user_rating")

/-! ## The batch coordinator (`routers/submission.py`) -/

/-- `process_single_grading` in the submission router: the whole
Submission→OCR→Grading pipeline body for one (problem_key, image) pair,
abstracted by its outcome — either the extraction and the optional grading
it returns, or the exception message it raises.  The function's `except
Exception` clause rolls back and returns `([], [])`, so the function never
raises. -/
def process_single_grading {α β : Type} (pipeline : Except String (α × Option β)) :
    List α × List β :=
  match pipeline with
  | .ok (e, g) =>
      ([e], match g with
            | some gr => [gr]
            | none => [])
  | .error _ => ([], [])

/-- One element of the `/submission/batch` response list. -/
structure BatchResponse (α β : Type) where
  success : Bool
  message : String
  extractions : List α
  gradings : List β
  deriving Repr, DecidableEq

/-- One item collected by `asyncio.gather(..., return_exceptions=True)`:
either the exception a task raised or the value it returned. -/
inductive GatherItem (α β : Type) where
  | exc (msg : String)
  | val (pair : List α × List β)
  deriving Repr, DecidableEq

/-- The fan-in of `create_batch_submission`: an exception object becomes a
`success=False` response with empty lists, any returned value becomes a
`success=True` response carrying the returned lists. -/
def collectResponse {α β : Type} (problem_key : String) : GatherItem α β → BatchResponse α β
  | .exc _ =>
      { success := false, message := problem_key ++ " 처리 패"
        extractions := [], gradings := [] }
  | .val (es, gs) =>
      { success := true, message := problem_key ++ " 처리 완료"
        extractions := es, gradings := gs }

/-- `create_batch_submission`: fans the per-pair pipelines out, gathers the
results with `return_exceptions=True` (since `process_single_grading` traps
every exception, the gathered item is always a value), and collects one
response per input pair, in input order. -/
def create_batch_submission {α β : Type}
    (pairs : List (String × Except String (α × Option β))) : List (BatchResponse α β) :=
  (pairs.map (fun p => (p.1, GatherItem.val (process_single_grading p.2)))).map
    (fun pr => collectResponse pr.1 pr.2)

/-- The per-pair batch outcome as the amended claim states it: every pair —
failed pipeline or not — yields a `success=True` outcome whose message is
`problem_key ++ " 처리 완료"`, with the pair's extraction and grading lists
when the pipeline succeeded and empty lists when it failed. -/
def amendedBatchOutcome {α β : Type} (p : String × Except String (α × Option β)) :
    BatchResponse α β :=
  match p.2 with
  | .ok (e, g) =>
      { success := true, message := p.1 ++ " 처리 완료", extractions := [e]
        gradings := match g with
                    | some gr => [gr]
                    | none => [] }
  | .error _ =>
      { success := true, message := p.1 ++ " 처리 완료", extractions := [], gradings := [] }

/-! ## Helper observers and concrete fixtures -/

/-- Whether an `Except` computation succeeded. -/
def exceptOk {ε α : Type} : Except ε α → Bool
  | .ok _ => true
  | .error _ => false

/-- The store a repository operation returns, when it succeeds. -/
def resultDB {ε α : Type} : Except ε (α × DBState) → Option DBState
  | .ok p => some p.2
  | .error _ => none

/-- A recognition result dict with text `"x"`. -/
def dictA : OCRResultDict := { text := some "x" }

/-- A sequential save sequence: two successes, one `KeyError`, one success. -/
def saveInputsW : List SaveInput :=
  [ { dict := dictA, image_path := "a.png", submission_id := 1 }
  , { dict := dictA, image_path := "a.png", submission_id := 1 }
  , { dict := { text := none }, image_path := "b.png", submission_id := 1 }
  , { dict := dictA, image_path := "b.png", submission_id := 1 } ]

/-- A stored extraction for student `s1`, problem `문항1`, submission 1. -/
def extRowC4 : ExtractionRow :=
  { id := 1, student_id := "s1", problem_key := "문항1", submission_id := 1
    extraction_number := 1, extracted_text := "텍스트", image_path := "img.png"
    solution_steps := [] }

/-- A store holding two rubrics: criteria 10 for `문항1` with the single
criterion 100, and criteria 20 for `문항2` with the single criterion 200. -/
def dbC4 : DBState :=
  { students := ["s1"]
    submissions := [{ id := 1, student_id := "s1", problem_key := "문항1", image_path := "img.png" }]
    extractions := [extRowC4]
    grading_criteria :=
      [ { id := 10, problem_key := "문항1", total_points := 100, correct_answer := "", description := none }
      , { id := 20, problem_key := "문항2", total_points := 100, correct_answer := "", description := none } ]
    detailed_criteria :=
      [ { id := 100, grading_criteria_id := 10, item := "문제 이해", points := 30, description := "a" }
      , { id := 200, grading_criteria_id := 20, item := "문제 이해", points := 30, description := "b" } ]
    gradings := [], detailed_scores := [], ratings := []
    nextExtractionId := 2, nextCriteriaId := 30, nextDetailedCriteriaId := 300
    nextGradingId := 1, nextScoreId := 1, nextRatingId := 1 }

/-- An external scoring result whose only detailed score references
criterion 200 — a criterion of the rubric for `문항2`, not of the rubric
for `문항1` the grading is for. -/
def gdataC4 : GradingResultDict :=
  { total_score := 5, max_score := 100, feedback := "fb"
    detailed_scores := [{ detailed_criteria_id := 200, score := 5, feedback := "sfb" }] }

/-- An external scoring result whose detailed score references criterion
999, which resolves to no stored criterion at all. -/
def gdataBad : GradingResultDict :=
  { total_score := 5, max_score := 100, feedback := "fb"
    detailed_scores := [{ detailed_criteria_id := 999, score := 5, feedback := "sfb" }] }

/-- A two-pair batch whose second pipeline raises (say, a timeout). -/
def pairsC1 : List (String × Except String (String × Option String)) :=
  [("문항1", .ok ("e1", some "g1")), ("문항2", .error "TimeoutError")]

/-- The default criteria dict for problem `문항1`. -/
def critC3def : CriteriaDict := get_default_criteria "문항1"

/-- A run observation: the run completed, with one assistant message and no
`process_grading` function call. -/
def obsCompleted : RunStatusObs :=
  { status := "completed", messages := [{ role := "assistant" }] }

/-- A recognition result whose `"text"` value is the empty string. -/
def emptyTextDict : OCRResultDict := { text := some "" }

/-- The row the pipeline persists for `emptyTextDict`. -/
def rowC7 : ExtractionRow :=
  { id := 1, student_id := "s1", problem_key := "문항1", submission_id := 1
    extraction_number := 1, extracted_text := "", image_path := "i.png"
    solution_steps := [] }

/-- The store after persisting `rowC7` into the empty store. -/
def dbC7 : DBState :=
  { DBState.empty with extractions := [rowC7], nextExtractionId := 2 }

/-- The cache after the empty-text call at time 0. -/
def cacheC7 : OCRCache := { entries := [("ocr:i.png", { result := emptyTextDict, expires_at := 3600 })] }

/-- The cache after a successful recognition of `img.png` at time 0. -/
def cacheW : OCRCache := { entries := [("ocr:img.png", { result := dictA, expires_at := 3600 })] }

/-- The row persisted by that first call. -/
def rowW : ExtractionRow :=
  { id := 1, student_id := "s1", problem_key := "문항1", submission_id := 1
    extraction_number := 1, extracted_text := "x", image_path := "img.png"
    solution_steps := [] }

/-- The store after that first call. -/
def dbW : DBState :=
  { DBState.empty with extractions := [rowW], nextExtractionId := 2 }

/-- Two extraction rows sharing the constrained triple but not the id. -/
def exRow1 : ExtractionRow :=
  { id := 1, student_id := "s1", problem_key := "문항1", submission_id := 1
    extraction_number := 1, extracted_text := "t", image_path := "p", solution_steps := [] }

/-- See `exRow1`. -/
def exRow2 : ExtractionRow := { exRow1 with id := 2 }

/-- Two grading rows sharing (student_id, problem_key, grading_number) but
not the id. -/
def gRow1 : GradingRow :=
  { id := 1, student_id := "s1", problem_key := "문항1", submission_id := 1
    extraction_id := 1, extracted_text := "t", solution_steps := []
    total_score := 1, max_score := 10, feedback := "f", grading_number := 1
    image_path := "p" }

/-- See `gRow1`. -/
def gRow2 : GradingRow := { gRow1 with id := 2 }

/-! # Theorems

Helper lemmas come first; the claim theorems follow, one per claim, each
with its witness or counterexample. -/

theorem foldr_max_init (l : List ExtractionRow) (a : Nat) :
    l.foldr (fun r m => max r.extraction_number m) a =
      max (l.foldr (fun r m => max r.extraction_number m) 0) a := by
  induction l with
  | nil => simp
  | cons x xs ih => simp [ih, Nat.max_assoc]

theorem maxExtractionNumber_append (rows : List ExtractionRow) (row : ExtractionRow)
    (sid pk : String) (h : (row.student_id == sid && row.problem_key == pk) = true) :
    maxExtractionNumber (rows ++ [row]) sid pk =
      max (maxExtractionNumber rows sid pk) row.extraction_number := by
  unfold maxExtractionNumber pairRows
  rw [List.filter_append, List.foldr_append]
  simp only [List.filter_cons, h, if_true, List.filter_nil, List.foldr_cons, List.foldr_nil,
    Nat.max_zero]
  exact foldr_max_init _ _

theorem save_result_ok_spec (db : DBState) (d : OCRResultDict) (sid pk ip : String)
    (subid : Nat) (row : ExtractionRow) (db2 : DBState)
    (h : save_result db d sid pk ip subid = .ok (row, db2)) :
    row.extraction_number = maxExtractionNumber db.extractions sid pk + 1 ∧
      db2.extractions = db.extractions ++ [row] ∧
      row.student_id = sid ∧ row.problem_key = pk := by
  unfold save_result at h
  cases hd : d.text with
  | none => rw [hd] at h; exact (Except.noConfusion h)
  | some t =>
    rw [hd] at h
    simp only [Except.ok.injEq, Prod.mk.injEq] at h
    obtain ⟨h1, h2⟩ := h
    subst h1
    subst h2
    exact ⟨rfl, rfl, rfl, rfl⟩

theorem runSaves_numbers (sid pk : String) (inputs : List SaveInput) (db : DBState) :
    (runSaves db sid pk inputs).1 =
      List.range' (maxExtractionNumber db.extractions sid pk + 1) (countSuccess inputs) := by
  induction inputs generalizing db with
  | nil => rfl
  | cons i is ih =>
    cases hd : i.dict.text with
    | none =>
      have hsave : save_result db i.dict sid pk i.image_path i.submission_id =
          .error (.keyError "text") := by
        unfold save_result; rw [hd]
      have hcount : countSuccess (i :: is) = countSuccess is := by
        simp [countSuccess, List.filter_cons, hd]
      rw [hcount]
      unfold runSaves
      rw [hsave]
      exact ih db
    | some t =>
      cases hsave : save_result db i.dict sid pk i.image_path i.submission_id with
      | error e =>
        unfold save_result at hsave
        rw [hd] at hsave
        exact (Except.noConfusion hsave)
      | ok p =>
        obtain ⟨row, db2⟩ := p
        obtain ⟨hnum, happ, hsid, hpk⟩ :=
          save_result_ok_spec db i.dict sid pk i.image_path i.submission_id row db2 hsave
        have hmax2 : maxExtractionNumber db2.extractions sid pk =
            maxExtractionNumber db.extractions sid pk + 1 := by
          rw [happ, maxExtractionNumber_append db.extractions row sid pk (by
            simp [hsid, hpk]), hnum]
          exact Nat.max_eq_right (Nat.le_succ _)
        have hcount : countSuccess (i :: is) = countSuccess is + 1 := by
          simp [countSuccess, List.filter_cons, hd]
        unfold runSaves
        rw [hsave]
        simp only [hcount]
        rw [ih db2, hmax2, hnum]
        rfl

/-- C2 — confirmed.  For every (owner, problem_key) pair, a successful
`save_result` assigns `extraction_number = 1 + max(existing)` for that
pair; and starting from a store with no rows for the pair, a sequential
sequence of saves assigns exactly the numbers `1, 2, 3, …` (one per
successful save): strictly increasing from 1 with no gaps. -/
theorem extraction_numbers_sequential (db : DBState) (sid pk : String)
    (inputs : List SaveInput) (h : pairRows db.extractions sid pk = []) :
    (∀ (db' : DBState) (d : OCRResultDict) (ip : String) (subid : Nat)
        (row : ExtractionRow) (db2 : DBState),
        save_result db' d sid pk ip subid = .ok (row, db2) →
        row.extraction_number = maxExtractionNumber db'.extractions sid pk + 1) ∧
      (runSaves db sid pk inputs).1 = List.range' 1 (countSuccess inputs) := by
  constructor
  · intro db' d ip subid row db2 hs
    exact (save_result_ok_spec db' d sid pk ip subid row db2 hs).1
  · have hm : maxExtractionNumber db.extractions sid pk = 0 := by
      unfold maxExtractionNumber; rw [h]; rfl
    have hrun := runSaves_numbers sid pk inputs db
    rw [hm] at hrun
    simpa using hrun

/-- Witness for C2: from the empty store, the four-save sequence (whose
third save fails with `KeyError`) assigns exactly the numbers 1, 2, 3. -/
theorem extraction_numbers_sequential_witness :
    pairRows DBState.empty.extractions "s1" "문항1" = [] ∧
      (runSaves DBState.empty "s1" "문항1" saveInputsW).1 =
        List.range' 1 (countSuccess saveInputsW) :=
  ⟨rfl, (extraction_numbers_sequential DBState.empty "s1" "문항1" saveInputsW rfl).2⟩

theorem reachable_extraction_no_dup (rows : List ExtractionRow)
    (h : ReachableExtractions rows) :
    rows.Pairwise (fun a b => sameExtractionTriple a b = false) := by
  induction h with
  | empty => exact List.Pairwise.nil
  | insert rows0 r rows2 hreach hins ih =>
    unfold insertExtraction at hins
    by_cases hany : (rows0.any fun r0 => sameExtractionTriple r0 r) = true
    · rw [if_pos hany] at hins
      exact (Except.noConfusion hins)
    · rw [if_neg hany] at hins
      have hall : ∀ a ∈ rows0, sameExtractionTriple a r = false := by
        intro a ha
        by_cases hx : sameExtractionTriple a r = true
        · exact absurd (List.any_eq_true.mpr ⟨a, ha, hx⟩) hany
        · exact Bool.eq_false_iff.mpr hx
      have h2 : rows2 = rows0 ++ [r] := by
        simpa using hins.symm
      rw [h2]
      refine List.pairwise_append.mpr ⟨ih, List.pairwise_singleton _ _, ?_⟩
      intro a ha b hb
      rw [List.mem_singleton.mp hb]
      exact hall a ha

/-- C8 — confirmed.  In every extraction-table state reachable by
successful inserts, no two rows share the (student_id, problem_key,
extraction_number) triple; an insert that duplicates an existing triple
fails with an integrity error; and the gradings table, which declares no
analogous constraint, can reach a state where two distinct rows share
(student_id, problem_key, grading_number). -/
theorem extraction_triple_unique_invariant :
    (∀ rows, ReachableExtractions rows →
        rows.Pairwise (fun a b => sameExtractionTriple a b = false)) ∧
      (∀ rows r, (rows.any fun r0 => sameExtractionTriple r0 r) = true →
        insertExtraction rows r = .error .integrityError) ∧
      (∃ rows, ReachableGradings rows ∧ ∃ a ∈ rows, ∃ b ∈ rows,
        a ≠ b ∧ sameGradingTriple a b = true) := by
  refine ⟨reachable_extraction_no_dup, ?_, ?_⟩
  · intro rows r h
    unfold insertExtraction
    rw [if_pos h]
  · refine ⟨[gRow1, gRow2], ?_, gRow1, by simp, gRow2, by simp, by decide, by decide⟩
    have h1 : ReachableGradings (insertGrading [] gRow1) :=
      ReachableGradings.insert [] gRow1 ReachableGradings.empty
    have h2 : ReachableGradings (insertGrading (insertGrading [] gRow1) gRow2) :=
      ReachableGradings.insert _ gRow2 h1
    simpa [insertGrading] using h2

/-- Witness for C8: inserting a row that repeats the stored triple of
`exRow1` is rejected with an integrity error. -/
theorem extraction_triple_unique_invariant_witness :
    (([exRow1].any fun r0 => sameExtractionTriple r0 exRow2) = true) ∧
      insertExtraction [exRow1] exRow2 = .error .integrityError :=
  ⟨by decide, extraction_triple_unique_invariant.2.1 [exRow1] exRow2 (by decide)⟩

theorem collect_single_eq {α β : Type} (p : String × Except String (α × Option β)) :
    collectResponse p.1 (GatherItem.val (process_single_grading p.2)) = amendedBatchOutcome p := by
  obtain ⟨pk, body⟩ := p
  cases body with
  | ok pr =>
    obtain ⟨e, g⟩ := pr
    cases g <;> rfl
  | error m => rfl

/-- C1 — corrected (amended form).  The batch fan-out/fan-in is total and
produces exactly one outcome per input pair, in input order; but because
`process_single_grading` traps every exception and returns empty lists,
every outcome — including those of failed pipelines — is tagged
`success=True` with the message `<problem_key> 처리 완료`, and a failed
pipeline is distinguishable only by its empty extraction/grading lists. -/
theorem batch_outcomes_amended {α β : Type}
    (pairs : List (String × Except String (α × Option β))) :
    create_batch_submission pairs = pairs.map amendedBatchOutcome := by
  induction pairs with
  | nil => rfl
  | cons p ps ih =>
    unfold create_batch_submission at ih ⊢
    simp only [List.map_cons]
    rw [collect_single_eq p]
    exact congrArg _ ih

/-- Counterexample for C1: in a two-pair batch whose second pipeline raises,
the second outcome is `success := true` with the completion message — not
the `success := false` failure outcome the claim requires. -/
theorem batch_failure_reported_as_success :
    create_batch_submission pairsC1 =
      [ { success := true, message := "문항1 처리 완료", extractions := ["e1"], gradings := ["g1"] }
      , { success := true, message := "문항2 처리 완료", extractions := [], gradings := [] } ] := by
  rfl

/-- C10 — the code contradicts its own upsert intent: the first statement
of `RatingService.create_rating` resolves `self.get_user_rating`, which no
class in the repository defines, so every call — for every store, rater and
payload — raises `AttributeError` and is rolled back; no rating row is
ever inserted or updated by this method. -/
theorem create_rating_always_raises (db : DBState) (rater_id : String)
    (rating_data : RatingCreate) :
    create_rating db rater_id rating_data =
      .error (.attributeError "RatingService object has no attribute get_user_rating") := rfl

/-- Counterexample for C3: when the run completes without a
`process_grading` function call (an assistant message is present), the
grading stage does not fail — `_process_run` returns a fabricated default
result with total score 0, which the caller goes on to persist. -/
theorem grading_run_without_call_returns_default :
    process_run critC3def [obsCompleted] = some (.ok (defaultGradingResult critC3def)) ∧
      (defaultGradingResult critC3def).total_score = 0 ∧
      (defaultGradingResult critC3def).feedback = "채점 결과를 생성할 수 없습니다." :=
  ⟨rfl, rfl, rfl⟩

/-- C3 — corrected (amended form).  When the run ends `failed`, `cancelled`
or `expired`, the stage raises a plain error (`채점 실패: <status>`; no
`GradingIncompleteError` type exists); when the run completes without a
`process_grading` call but with an assistant message, the stage instead
returns the fabricated default zero-score result; and the service only ever
persists a grading when the processor produced an `ok` result, so a failed
run persists nothing. -/
theorem grading_run_amended :
    (∀ (criteria : CriteriaDict) (tcs : List ToolCall) (msgs : List ThreadMessage)
        (rest : List RunStatusObs) (s : String),
        s = "failed" ∨ s = "cancelled" ∨ s = "expired" →
        process_run criteria ({ status := s, tool_calls := tcs, messages := msgs } :: rest) =
          some (.error (.runFailed ("채점 실패: " ++ s)))) ∧
      (∀ (criteria : CriteriaDict) (tcs : List ToolCall) (msgs : List ThreadMessage)
          (rest : List RunStatusObs),
          (msgs.find? (fun m => m.role == "assistant")).isSome = true →
          process_run criteria
              ({ status := "completed", tool_calls := tcs, messages := msgs } :: rest) =
            some (.ok (defaultGradingResult criteria))) ∧
      (∀ (db : DBState) (sid pk ip : String) (ext : ExtractionRow)
          (criteria : Option CriteriaDict) (runObs : List RunStatusObs)
          (resp : GradingResponseData) (db2 : DBState),
          service_create_grading db sid pk ip ext criteria runObs = some (.ok (resp, db2)) →
          ∃ r, process_grading (match criteria with
              | none => get_default_criteria pk
              | some c => c) runObs = some (.ok r)) := by
  refine ⟨?_, ?_, ?_⟩
  · intro criteria tcs msgs rest s h
    rcases h with rfl | rfl | rfl <;> rfl
  · intro criteria tcs msgs rest h
    obtain ⟨m, hm⟩ := Option.isSome_iff_exists.mp h
    simp only [process_run, hm]
    rfl
  · intro db sid pk ip ext criteria runObs resp db2 h
    simp only [service_create_grading] at h
    split at h
    · simp at h
    · split at h
      · simp at h
      · split at h
        · simp at h
        · simp at h
        next result hpg => exact ⟨result, hpg⟩

/-- Witness for C3: a run observed `cancelled` makes `_process_run` raise
the plain failure error. -/
theorem grading_run_amended_witness :
    (("cancelled" : String) = "failed" ∨ ("cancelled" : String) = "cancelled" ∨
        ("cancelled" : String) = "expired") ∧
      process_run critC3def [{ status := "cancelled" }] =
        some (.error (.runFailed ("채점 실패: " ++ "cancelled"))) :=
  ⟨Or.inr (Or.inl rfl),
    grading_run_amended.1 critC3def [] [] [] "cancelled" (Or.inr (Or.inl rfl))⟩

/-- Counterexample for C5: the criteria lookup performed inside the grading
path (`GradingRepository.verify_references`) persists the default rubric —
the stored rubric set is changed by the lookup, contradicting the claim
that the fallback is never persisted. -/
theorem criteria_lookup_persists_default :
    (verify_references DBState.empty "문항9" 1 1).2.grading_criteria ≠
        DBState.empty.grading_criteria ∧
      ((verify_references DBState.empty "문항9" 1 1).2.grading_criteria.map
        (fun c => c.problem_key)) = ["문항9"] ∧
      (verify_references DBState.empty "문항9" 1 1).2.detailed_criteria.length = 4 := by
  refine ⟨by decide, rfl, rfl⟩

/-- C5 — corrected (amended form).  `CriteriaService.get_criteria` returns
the hard-coded 4-criterion fallback dict without persisting anything, and
`GradingService.get_default_criteria` is a pure 4-criterion dict; but the
grading path's own lookup, `GradingRepository.verify_references`, creates
and flushes a default rubric (with four criteria) whenever none exists for
the key, so the stored rubric set does change. -/
theorem criteria_fallback_amended :
    (∀ (db : DBState) (pk : String),
        db.grading_criteria.find? (fun c => c.problem_key == pk) = none →
        get_criteria db pk = (.fallback (criteriaServiceFallback pk), db) ∧
          (criteriaServiceFallback pk).detailed_criteria.length = 4) ∧
      (∀ pk : String, (get_default_criteria pk).detailed_criteria.length = 4) ∧
      (∀ (db : DBState) (pk : String) (a b : Nat),
          db.grading_criteria.find? (fun c => c.problem_key == pk) = none →
          (verify_references db pk a b).2.grading_criteria =
              db.grading_criteria ++
                [{ id := db.nextCriteriaId, problem_key := pk, total_points := 100
                   correct_answer := "", description := some "기본 채점 기준" }] ∧
            (verify_references db pk a b).2.detailed_criteria =
              db.detailed_criteria ++
                defaultDetailedCriteriaRows db.nextCriteriaId db.nextDetailedCriteriaId) := by
  refine ⟨?_, fun pk => rfl, ?_⟩
  · intro db pk h
    constructor
    · unfold get_criteria
      rw [h]
    · rfl
  · intro db pk a b h
    unfold verify_references
    rw [h]
    exact ⟨rfl, rfl⟩

/-- Witness for C5: on the empty store, the lookup misses and the fallback
dict is returned with the store unchanged. -/
theorem criteria_fallback_amended_witness :
    DBState.empty.grading_criteria.find? (fun c => c.problem_key == "문항9") = none ∧
      get_criteria DBState.empty "문항9" =
        (.fallback (criteriaServiceFallback "문항9"), DBState.empty) :=
  ⟨rfl, (criteria_fallback_amended.1 DBState.empty "문항9" rfl).1⟩

/-- C6 — the code contradicts its own intent: the timeout branch raises
`HTTPException(408, ...)`, but the method's catch-all `except Exception`
clause re-wraps it, so the caller is handed status 500 whose detail merely
quotes the 408 — not the retryable 408-equivalent the claim states.  The
error return shows `save_result` never ran, so no extraction row is
persisted for the timed-out call. -/
theorem ocr_timeout_surfaced_as_500 (cache : OCRCache) (now : Nat)
    (sid pt ip : String) (subid : Nat) (db : DBState)
    (h : cacheGet cache (get_cache_key ip) = none) :
    analyze_image cache now sid pt ip subid .timeout db =
      (cache, .error { status := 500
                       detail := strOfHTTPError { status := 408, detail := ocrTimeoutDetail } }) := by
  unfold analyze_image
  rw [h]
  rfl

/-- Witness for C6: the concrete timed-out call returns status 500 with the
quoted-408 detail string. -/
theorem ocr_timeout_surfaced_as_500_witness :
    cacheGet { entries := [] } (get_cache_key "img.png") = none ∧
      analyze_image { entries := [] } 0 "s1" "문항1" "img.png" 1 .timeout DBState.empty =
        ({ entries := [] },
          .error { status := 500, detail := "408: OCR 분석 시간이 초과되었습니다. 다시 시도해주세요." }) :=
  ⟨rfl, (ocr_timeout_surfaced_as_500 { entries := [] } 0 "s1" "문항1" "img.png" 1
      DBState.empty rfl).trans rfl⟩

/-- Counterexample for C7: a recognition result with an empty text field is
not rejected — the pipeline persists an extraction row with
`extracted_text = ""` — and even the (never invoked) validator accepts it. -/
theorem empty_text_extraction_persisted :
    analyze_image { entries := [] } 0 "s1" "문항1" "i.png" 1 (.ok emptyTextDict) DBState.empty =
        (cacheC7, .ok (.fresh rowC7, dbC7)) ∧
      rowC7.extracted_text = "" ∧
      dbC7.extractions.length = DBState.empty.extractions.length + 1 ∧
      validate_ocr_result (.dict [("text", .str "")]) = true :=
  ⟨rfl, rfl, rfl, rfl⟩

/-- C7 — corrected (amended form).  The extraction stage performs no
explicit validation and never calls `validate_ocr_result`; a result whose
`"text"` key is missing fails only through the `KeyError` raised by
`ocr_result["text"]` (wrapped by the catch-all into a 500) and persists
nothing, while a result whose text is any string — the empty string
included — is persisted verbatim; and `validate_ocr_result` itself checks
only presence and type of `"text"`, accepting the empty string. -/
theorem ocr_result_validation_amended :
    (∀ (cache : OCRCache) (now : Nat) (sid pt ip : String) (subid : Nat)
        (db : DBState) (d : OCRResultDict),
        d.text = none → cacheGet cache (get_cache_key ip) = none →
        analyze_image cache now sid pt ip subid (.ok d) db =
          (cacheSet cache (get_cache_key ip) d (now + 3600),
            .error { status := 500, detail := strOfPyErr (.keyError "text") })) ∧
      (∀ (cache : OCRCache) (now : Nat) (sid pt ip : String) (subid : Nat)
          (db : DBState) (d : OCRResultDict) (t : String) (row : ExtractionRow)
          (db2 : DBState),
          d.text = some t → cacheGet cache (get_cache_key ip) = none →
          save_result db d sid pt ip subid = .ok (row, db2) →
          analyze_image cache now sid pt ip subid (.ok d) db =
              (cacheSet cache (get_cache_key ip) d (now + 3600), .ok (.fresh row, db2)) ∧
            row.extracted_text = t) ∧
      validate_ocr_result (.dict [("text", .str "")]) = true := by
  refine ⟨?_, ?_, rfl⟩
  · intro cache now sid pt ip subid db d hd hc
    have hs : save_result db d sid pt ip subid = .error (.keyError "text") := by
      unfold save_result; rw [hd]
    unfold analyze_image
    rw [hc]
    simp only [analyze_image_uncached, hs]
  · intro cache now sid pt ip subid db d t row db2 hd hc hs
    constructor
    · unfold analyze_image
      rw [hc]
      simp only [analyze_image_uncached, hs]
    · unfold save_result at hs
      rw [hd] at hs
      simp only [Except.ok.injEq, Prod.mk.injEq] at hs
      rw [← hs.1]

/-- Witness for C7: the empty-text result is persisted with
`extracted_text = ""`. -/
theorem ocr_result_validation_amended_witness :
    emptyTextDict.text = some "" ∧
      cacheGet { entries := [] } (get_cache_key "i.png") = none ∧
      save_result DBState.empty emptyTextDict "s1" "문항1" "i.png" 1 = .ok (rowC7, dbC7) ∧
      (analyze_image { entries := [] } 0 "s1" "문항1" "i.png" 1 (.ok emptyTextDict) DBState.empty =
          (cacheSet { entries := [] } (get_cache_key "i.png") emptyTextDict (0 + 3600),
            .ok (.fresh rowC7, dbC7)) ∧
        rowC7.extracted_text = "") :=
  ⟨rfl, rfl, rfl,
    ocr_result_validation_amended.2.1 { entries := [] } 0 "s1" "문항1" "i.png" 1
      DBState.empty emptyTextDict "" rowC7 dbC7 rfl rfl rfl⟩

theorem cacheGet_cacheSet (c : OCRCache) (k : String) (v : OCRResultDict) (e : Nat) :
    cacheGet (cacheSet c k v e) k = some { result := v, expires_at := e } := by
  unfold cacheGet cacheSet
  simp

theorem analyze_uncached_cache (c : OCRCache) (now : Nat) (sid pk ip : String)
    (subid : Nat) (d : OCRResultDict) (db db1 : DBState) (cache1 : OCRCache)
    (row : ExtractionRow)
    (h : analyze_image_uncached c now sid pk ip subid (.ok d) db =
      (cache1, .ok (.fresh row, db1))) :
    cache1 = cacheSet c (get_cache_key ip) d (now + 3600) := by
  simp only [analyze_image_uncached] at h
  cases hs : save_result db d sid pk ip subid with
  | error e =>
      rw [hs] at h
      simp only [Prod.mk.injEq] at h
      exact absurd h.2 (by simp)
  | ok p =>
      obtain ⟨prow, pdb⟩ := p
      rw [hs] at h
      simp only [Prod.mk.injEq] at h
      exact h.1.symm

/-- C9 — confirmed.  After a first `analyze_image` call that actually ran
recognition and persisted a row (outcome `.fresh`), a second call for the
same image path within the 1-hour TTL returns the raw cached recognition
dict directly: it performs no external call (the outcome argument is
irrelevant), creates no extraction row, assigns no extraction number, and
leaves both the cache and the store it is given untouched. -/
theorem cache_hit_returns_raw_result
    (cache cache1 : OCRCache) (t1 t2 : Nat) (sid pk ip sid2 pk2 : String)
    (subid sub2 : Nat) (d : OCRResultDict) (db db1 db2 : DBState)
    (row : ExtractionRow) (call2 : OCRCallOutcome)
    (h1 : analyze_image cache t1 sid pk ip subid (.ok d) db = (cache1, .ok (.fresh row, db1)))
    (h2 : t2 < t1 + 3600) :
    analyze_image cache1 t2 sid2 pk2 ip sub2 call2 db2 = (cache1, .ok (.cached d, db2)) := by
  have hcl : cache1 = cacheSet cache (get_cache_key ip) d (t1 + 3600) ∨
      cache1 = cacheSet (cachePop cache (get_cache_key ip)) (get_cache_key ip) d (t1 + 3600) := by
    unfold analyze_image at h1
    cases hc : cacheGet cache (get_cache_key ip) with
    | some entry =>
        simp only [hc] at h1
        by_cases ht : t1 < entry.expires_at
        · rw [if_pos ht] at h1
          simp only [Prod.mk.injEq] at h1
          exact absurd h1.2 (by simp)
        · rw [if_neg ht] at h1
          exact Or.inr (analyze_uncached_cache _ t1 sid pk ip subid d db db1 cache1 row h1)
    | none =>
        simp only [hc] at h1
        exact Or.inl (analyze_uncached_cache _ t1 sid pk ip subid d db db1 cache1 row h1)
  have hget : cacheGet cache1 (get_cache_key ip) =
      some { result := d, expires_at := t1 + 3600 } := by
    rcases hcl with h | h <;> rw [h, cacheGet_cacheSet]
  unfold analyze_image
  simp only [hget]
  rw [if_pos h2]

/-- Witness for C9: the second call, 100 seconds after the first, returns
the cached dict with no change to the store it receives. -/
theorem cache_hit_returns_raw_result_witness :
    analyze_image { entries := [] } 0 "s1" "문항1" "img.png" 1 (.ok dictA) DBState.empty =
        (cacheW, .ok (.fresh rowW, dbW)) ∧
      100 < 0 + 3600 ∧
      analyze_image cacheW 100 "s2" "문항2" "img.png" 7 .timeout DBState.empty =
        (cacheW, .ok (.cached dictA, DBState.empty)) :=
  ⟨rfl, by decide,
    cache_hit_returns_raw_result { entries := [] } cacheW 0 100 "s1" "문항1" "img.png"
      "s2" "문항2" 1 7 dictA DBState.empty dbW DBState.empty rowW .timeout rfl (by decide)⟩

theorem mkScoreRows_any_isNone (g f : Nat) (sds : List DetailedScoreDict)
    (dc : List DetailedCriteriaRow) :
    ((mkScoreRows g f sds).any (fun s =>
        (dc.find? (fun d0 => d0.id == s.detailed_criteria_id)).isNone)) =
      sds.any (fun sd => (dc.find? (fun d0 => d0.id == sd.detailed_criteria_id)).isNone) := by
  induction sds generalizing f with
  | nil => rfl
  | cons sd rest ih => simp [mkScoreRows, ih]

/-- C4 — corrected (amended form).  The repository rejects a
`detailed_criteria_id` only when it resolves to no stored criterion at all
(the foreign key raises an integrity error, and the relationship check
raises `ValueError` — not an `InvalidResultError`, which does not exist);
the operation then never succeeds, so nothing is committed.  But an id that
resolves to a criterion of a *different* rubric is accepted: the concrete
run below persists a grading for `문항1` (rubric 10, criterion ids `[100]`)
whose detailed score references criterion 200 of rubric 20. -/
theorem grading_criterion_resolution_amended :
    (∀ (db : DBState) (sid pk ip : String) (gdata : GradingResultDict) (ext : ExtractionRow),
        (db.grading_criteria.find? (fun c => c.problem_key == pk)).isSome = true →
        (gdata.detailed_scores.any (fun sd =>
          (db.detailed_criteria.find? (fun d0 => d0.id == sd.detailed_criteria_id)).isNone)) = true →
        exceptOk (repository_create_grading db sid pk ip gdata ext) = false) ∧
      exceptOk (repository_create_grading dbC4 "s1" "문항1" "img.png" gdataC4 extRowC4) = true ∧
      (resultDB (repository_create_grading dbC4 "s1" "문항1" "img.png" gdataC4 extRowC4)).map
          (fun db3 => db3.detailed_scores.map (fun s => s.detailed_criteria_id)) = some [200] := by
  refine ⟨?_, rfl, rfl⟩
  intro db sid pk ip gdata ext hk hd
  obtain ⟨c, hc⟩ := Option.isSome_iff_exists.mp hk
  unfold repository_create_grading verify_references
  simp only [hc]
  split
  · rfl
  · split
    · rfl
    · split
      · rfl
      · split
        · rfl
        · split
          · rfl
          next hnot =>
            exact absurd (by rw [mkScoreRows_any_isNone]; exact hd) hnot

/-- Witness for C4: with the rubric for `문항1` present, a result whose
detailed score references the nonexistent criterion 999 makes the
operation fail. -/
theorem grading_criterion_resolution_amended_witness :
    (dbC4.grading_criteria.find? (fun c => c.problem_key == "문항1")).isSome = true ∧
      (gdataBad.detailed_scores.any (fun sd =>
        (dbC4.detailed_criteria.find? (fun d0 => d0.id == sd.detailed_criteria_id)).isNone)) = true ∧
      exceptOk (repository_create_grading dbC4 "s1" "문항1" "img.png" gdataBad extRowC4) = false :=
  ⟨rfl, rfl,
    grading_criterion_resolution_amended.1 dbC4 "s1" "문항1" "img.png" gdataBad extRowC4 rfl rfl⟩

/-- Counterexample for C4: a detailed score whose `detailed_criteria_id`
(200) resolves to a criterion of the rubric for `문항2` — not of the rubric
supplied for this `문항1` grading, whose criterion ids are `[100]` — is
accepted, and the grading is persisted with that out-of-rubric detailed
score instead of failing with `InvalidResultError`. -/
theorem grading_persists_foreign_rubric_score :
    exceptOk (repository_create_grading dbC4 "s1" "문항1" "img.png" gdataC4 extRowC4) = true ∧
      (resultDB (repository_create_grading dbC4 "s1" "문항1" "img.png" gdataC4 extRowC4)).map
          (fun db3 => db3.detailed_scores.map (fun s => s.detailed_criteria_id)) = some [200] ∧
      (dbC4.grading_criteria.find? (fun c => c.problem_key == "문항1")).map (fun c => c.id) =
        some 10 ∧
      ((dbC4.detailed_criteria.filter (fun d0 => d0.grading_criteria_id == 10)).map
        (fun d0 => d0.id)) = [100] ∧
      (dbC4.detailed_criteria.find? (fun d0 => d0.id == 200)).map
        (fun d0 => d0.grading_criteria_id) = some 20 :=
  ⟨rfl, rfl, rfl, rfl, rfl⟩

end Maice
